import Mathlib

/-!
Verification development for the claude-bot-infrastructure control plane.

This file gives a shallow embedding, in Lean, of the orchestration core of
the repository and proves properties of that embedding:

- the task queue (src/claude_bot/utils/work_queue.py): work items,
  capability matching, dequeue, and stale-task reclamation;
- the workflow engine (src/claude_bot/orchestrator/workflow_manager.py):
  the per-issue step state machine with retry and feedback suspension;
- the worker pool (src/claude_bot/platform/container_manager.py): spawn,
  monitor, and cleanup under a concurrency cap;
- the discovery cycle (src/claude_bot/orchestrator/central_orchestrator.py).

Modelling conventions: Python datetimes are integers (minutes); Python
dicts are association lists; external effects (the Docker daemon, the
GitHub CLI) are parameters of the embedded operations; operations that the
source serialises under a threading.Lock are modelled as atomic state
transitions, so a run of concurrent calls is a sequence of such
transitions in some order.
-/

namespace ClaudeBot

/-! TaskQueue data model, from work_queue.py. -/

/-- Task status enumeration (work_queue.py, class TaskStatus). -/
inductive TaskStatus where
  | PENDING
  | ASSIGNED
  | IN_PROGRESS
  | COMPLETED
  | FAILED
  | RETRY
deriving DecidableEq, Repr

/-- Task priority enumeration (work_queue.py, class TaskPriority). -/
inductive TaskPriority where
  | LOW
  | MEDIUM
  | HIGH
  | URGENT
deriving DecidableEq, Repr

/-- A single work item in the queue (work_queue.py, class WorkItem).
Times are integers (minutes); Python dicts are association lists. -/
structure WorkItem where
  task_id : String
  issue_number : Option Int := none
  title : String := ""
  description : String := ""
  repo : String := ""
  platform_requirements : List (String × String) := []
  priority : TaskPriority := TaskPriority.MEDIUM
  status : TaskStatus := TaskStatus.PENDING
  created_at : Int := 0
  assigned_at : Option Int := none
  started_at : Option Int := none
  completed_at : Option Int := none
  assigned_to : Option String := none
  retry_count : Nat := 0
  max_retries : Nat := 3
  error_message : Option String := none
  result : Option (List (String × String)) := none
deriving DecidableEq, Repr

/-- Python str.split with separator a single dot, over the char list of
the string: the embedding of required.split(t) in _versions_compatible. -/
def splitDot : List Char → List (List Char)
  | [] => [[]]
  | c :: rest =>
    if c = '.' then [] :: splitDot rest
    else
      match splitDot rest with
      | [] => [[c]]
      | p :: ps => (c :: p) :: ps

/-- Dot-separated components of a version string. -/
def versionParts (v : String) : List String :=
  (splitDot v.toList).map (fun cs => String.mk cs)

/-- FileBasedWorkQueue._versions_compatible: when both versions have at
least two dot-components, compare major.minor; otherwise fall back to
exact string equality.  (The try/except in the source is dead: str.split
cannot raise.) -/
def versions_compatible (required available : String) : Bool :=
  match versionParts required, versionParts available with
  | r0 :: r1 :: _, a0 :: a1 :: _ => r0 == a0 && r1 == a1
  | _, _ => required == available

/-- FileBasedWorkQueue._is_compatible: an item with no requirements
matches any worker; a worker with no capabilities matches only such
items; otherwise every required platform must be declared with a version
accepted by the required-side latest check or _versions_compatible. -/
def is_compatible (platform_requirements worker_capabilities : List (String × String)) : Bool :=
  if platform_requirements.isEmpty then
    true
  else if worker_capabilities.isEmpty then
    false
  else
    platform_requirements.all fun pr =>
      match worker_capabilities.lookup pr.1 with
      | none => false
      | some worker_version =>
        if pr.2 != "latest" && pr.2 != worker_version then
          versions_compatible pr.2 worker_version
        else
          true

/-- Following the specification's words for claim C1, per required pair:
major and minor components equal (exact match, or either the required or
the declared version is the string latest). -/
def spec_version_ok (required worker_version : String) : Bool :=
  required == worker_version ||
  (match versionParts required, versionParts worker_version with
   | r0 :: r1 :: _, a0 :: a1 :: _ => r0 == a0 && r1 == a1
   | _, _ => false) ||
  required == "latest" || worker_version == "latest"

/-- Following the specification's words for claim C1: an empty
requirement map matches any worker; otherwise each required pair must be
satisfied in the sense of spec_version_ok. -/
def spec_compatible (platform_requirements worker_capabilities : List (String × String)) : Bool :=
  platform_requirements.isEmpty ||
  platform_requirements.all fun pr =>
    match worker_capabilities.lookup pr.1 with
    | none => false
    | some worker_version => spec_version_ok pr.2 worker_version

/-- Major.minor comparison exactly when both versions carry at least two
dot-components (the amended reading of claim C1). -/
def major_minor_ok (required worker_version : String) : Bool :=
  match versionParts required, versionParts worker_version with
  | r0 :: r1 :: _, a0 :: a1 :: _ => r0 == a0 && r1 == a1
  | _, _ => false

/-- Amended per-pair check for claim C1: the required version is latest,
or the strings match exactly, or both have major.minor components and
they agree.  A worker-side latest is not a wildcard. -/
def amended_version_ok (required worker_version : String) : Bool :=
  required == "latest" || required == worker_version || major_minor_ok required worker_version

/-- Amended compatibility predicate for claim C1. -/
def amended_compatible (platform_requirements worker_capabilities : List (String × String)) : Bool :=
  platform_requirements.isEmpty ||
  platform_requirements.all fun pr =>
    match worker_capabilities.lookup pr.1 with
    | none => false
    | some worker_version => amended_version_ok pr.2 worker_version

/-! FileBasedWorkQueue state and operations.  The four status
directories become four lists; the pending list is kept in the sorted
filename order the source's glob produces.  Every queue method runs under
the instance's threading.Lock, so each is one atomic state transition. -/

/-- The four status partitions of FileBasedWorkQueue. -/
structure QueueState where
  pending : List WorkItem := []
  assigned : List WorkItem := []
  completed : List WorkItem := []
  failed : List WorkItem := []
deriving DecidableEq, Repr

/-- The item as dequeue rewrites it before moving it to the assigned
partition: status ASSIGNED, assigned_at stamped, assigned_to bound. -/
def assigned_item (now : Int) (worker_id : String) (item : WorkItem) : WorkItem :=
  { item with
      status := TaskStatus.ASSIGNED
      assigned_at := some now
      assigned_to := some worker_id }

/-- The scan inside FileBasedWorkQueue.dequeue: walk the pending items in
order, claim the first compatible one, leave the rest in place.  Returns
the claimed item (already rewritten) and the remaining pending list. -/
def dequeue_scan (now : Int) (worker_id : String)
    (platform_capabilities : List (String × String)) :
    List WorkItem → Option WorkItem × List WorkItem
  | [] => (none, [])
  | item :: rest =>
    if is_compatible item.platform_requirements platform_capabilities then
      (some (assigned_item now worker_id item), rest)
    else
      let r := dequeue_scan now worker_id platform_capabilities rest
      (r.1, item :: r.2)

/-- FileBasedWorkQueue.dequeue: under the lock, claim the first
compatible pending item, write it to the assigned partition and remove it
from pending in the same transition; return nothing when no compatible
item exists. -/
def dequeue (now : Int) (worker_id : String)
    (platform_capabilities : List (String × String)) (q : QueueState) :
    Option WorkItem × QueueState :=
  match dequeue_scan now worker_id platform_capabilities q.pending with
  | (some item, rest) =>
    (some item, { q with pending := rest, assigned := q.assigned ++ [item] })
  | (none, _) => (none, q)

/-- Staleness test in cleanup_stale_tasks: the item has an assigned_at
timestamp and it is strictly before the cutoff. -/
def is_stale (cutoff : Int) (item : WorkItem) : Bool :=
  match item.assigned_at with
  | some t => decide (t < cutoff)
  | none => false

/-- The retry rewrite in cleanup_stale_tasks for a stale item with
retries left: bump retry_count, set status RETRY, clear the assignment,
record the timeout message.  The rewritten item is written back into the
pending partition. -/
def stale_retry_item (timeout_minutes : Int) (item : WorkItem) : WorkItem :=
  { item with
      retry_count := item.retry_count + 1
      status := TaskStatus.RETRY
      assigned_at := none
      assigned_to := none
      error_message := some ("Task timed out after " ++ toString timeout_minutes ++
        " minutes (retry " ++ toString (item.retry_count + 1) ++ ")") }

/-- The terminal rewrite in cleanup_stale_tasks for a stale item out of
retries: status FAILED, completed_at stamped, timeout message recorded. -/
def stale_failed_item (now : Int) (item : WorkItem) : WorkItem :=
  { item with
      status := TaskStatus.FAILED
      completed_at := some now
      error_message := some ("Task failed after " ++ toString item.max_retries ++
        " retries (timeout)") }

/-- The loop body of cleanup_stale_tasks over the assigned partition.
Returns the items kept in assigned, the items moved to pending, the items
moved to failed, and the reclaimed count. -/
def cleanup_assigned_scan (now timeout_minutes cutoff : Int) :
    List WorkItem → List WorkItem × List WorkItem × List WorkItem × Nat
  | [] => ([], [], [], 0)
  | item :: rest =>
    let r := cleanup_assigned_scan now timeout_minutes cutoff rest
    if is_stale cutoff item then
      if item.retry_count < item.max_retries then
        (r.1, stale_retry_item timeout_minutes item :: r.2.1, r.2.2.1, r.2.2.2 + 1)
      else
        (r.1, r.2.1, stale_failed_item now item :: r.2.2.1, r.2.2.2 + 1)
    else
      (item :: r.1, r.2.1, r.2.2.1, r.2.2.2)

/-- FileBasedWorkQueue.cleanup_stale_tasks: reclaim every assigned item
whose assigned_at is older than the cutoff, into pending (with retries
left) or failed (otherwise); return the new state and the count. -/
def cleanup_stale_tasks (now timeout_minutes : Int) (q : QueueState) : QueueState × Nat :=
  let cutoff := now - timeout_minutes
  let r := cleanup_assigned_scan now timeout_minutes cutoff q.assigned
  ({ q with assigned := r.1
            pending := q.pending ++ r.2.1
            failed := q.failed ++ r.2.2.1 }, r.2.2.2)

/-- A sequence of dequeue calls executed in serialisation order (the
queue lock serialises concurrent callers): each caller is a worker id
with its capability map; results are collected in order. -/
def run_dequeues (now : Int) :
    List (String × List (String × String)) → QueueState →
    List (Option WorkItem) × QueueState
  | [], q => ([], q)
  | (worker_id, caps) :: rest, q =>
    let r := dequeue now worker_id caps q
    let rs := run_dequeues now rest r.2
    (r.1 :: rs.1, rs.2)

/-! WorkflowEngine data model, from workflow_manager.py. -/

/-- The fixed ordered step set (workflow_manager.py, class WorkflowStep). -/
inductive WorkflowStep where
  | ANALYSIS
  | PLANNING
  | IMPLEMENTATION
  | PR_CREATION
  | FEEDBACK_HANDLING
  | COMPLETION
deriving DecidableEq, Repr

/-- The serialized string value of a step (the Python enum value). -/
def WorkflowStep.value : WorkflowStep → String
  | .ANALYSIS => "analysis"
  | .PLANNING => "planning"
  | .IMPLEMENTATION => "implementation"
  | .PR_CREATION => "pr_creation"
  | .FEEDBACK_HANDLING => "feedback_handling"
  | .COMPLETION => "completion"

/-- Workflow status enumeration (workflow_manager.py, class WorkflowStatus). -/
inductive WorkflowStatus where
  | PENDING
  | IN_PROGRESS
  | WAITING_FOR_FEEDBACK
  | COMPLETED
  | FAILED
  | BLOCKED
deriving DecidableEq, Repr

/-- One row of the static per-step configuration table.  max_duration is
in minutes. -/
structure StepConfig where
  template : Option String
  max_duration : Int
  next_step : Option WorkflowStep
  can_wait_for_feedback : Bool
deriving DecidableEq, Repr

/-- WorkflowManager.step_configs, the immutable step table built in
WorkflowManager.__init__ (durations 1h, 2h, 8h, 1h, 7d, 1h in minutes). -/
def step_configs : WorkflowStep → StepConfig
  | .ANALYSIS =>
    { template := some "/bot/config/workflow-templates/01-issue-analysis.md"
      max_duration := 60
      next_step := some .PLANNING
      can_wait_for_feedback := true }
  | .PLANNING =>
    { template := some "/bot/config/workflow-templates/02-planning-breakdown.md"
      max_duration := 120
      next_step := some .IMPLEMENTATION
      can_wait_for_feedback := true }
  | .IMPLEMENTATION =>
    { template := some "/bot/config/workflow-templates/03-implementation.md"
      max_duration := 480
      next_step := some .PR_CREATION
      can_wait_for_feedback := false }
  | .PR_CREATION =>
    { template := some "/bot/config/workflow-templates/04-pr-creation-feedback.md"
      max_duration := 60
      next_step := some .FEEDBACK_HANDLING
      can_wait_for_feedback := false }
  | .FEEDBACK_HANDLING =>
    { template := some "/bot/config/workflow-templates/04-pr-creation-feedback.md"
      max_duration := 10080
      next_step := some .COMPLETION
      can_wait_for_feedback := true }
  | .COMPLETION =>
    { template := none
      max_duration := 60
      next_step := none
      can_wait_for_feedback := false }

/-- The open key-value context bag carried by a workflow, restricted to
the keys the engine itself reads or writes; unknown keys live in the
extra bag and never influence control flow.  last_error holds the raw
optional error argument (some none models the key set to Python None). -/
structure WorkflowContext where
  current_worker : Option String := none
  step_started_at : Option Int := none
  last_error : Option (Option String) := none
  failure_reason : Option String := none
  feedback_requested_at : Option Int := none
  extra : List (String × String) := []
deriving DecidableEq, Repr

/-- A partial context used as the context_updates / feedback_context
argument of update_workflow and mark_step_waiting_for_feedback; a some
field overrides, a none field is absent from the update dict. -/
structure ContextUpdates where
  current_worker : Option String := none
  step_started_at : Option Int := none
  last_error : Option (Option String) := none
  failure_reason : Option String := none
  feedback_requested_at : Option Int := none
  extra : List (String × String) := []
deriving DecidableEq, Repr

/-- Python dict.update on the context bag. -/
def WorkflowContext.update (ctx : WorkflowContext) (u : ContextUpdates) : WorkflowContext :=
  { current_worker := match u.current_worker with
      | some v => some v
      | none => ctx.current_worker
    step_started_at := match u.step_started_at with
      | some v => some v
      | none => ctx.step_started_at
    last_error := match u.last_error with
      | some v => some v
      | none => ctx.last_error
    failure_reason := match u.failure_reason with
      | some v => some v
      | none => ctx.failure_reason
    feedback_requested_at := match u.feedback_requested_at with
      | some v => some v
      | none => ctx.feedback_requested_at
    extra := ctx.extra ++ u.extra }

/-- One append-only step_history entry; the status key is absent (none)
for plain update_workflow entries, "completed" for advance entries, and
"retry" for retry entries. -/
structure HistoryEntry where
  step : String
  timestamp : Int
  result : Option (List (String × String)) := none
  status : Option String := none
deriving DecidableEq, Repr

/-- Python str rendering of an optional string (f-string prints None). -/
def pyStr : Option String → String
  | some s => s
  | none => "None"

/-- Persisted workflow state (workflow_manager.py, dataclass
WorkflowState); max_retries defaults to 2. -/
structure WorkflowState where
  workflow_id : String
  issue_number : Int
  repo : String
  title : String
  description : String
  current_step : WorkflowStep
  status : WorkflowStatus
  created_at : Int
  updated_at : Int
  step_history : List HistoryEntry
  context : WorkflowContext
  retry_count : Nat := 0
  max_retries : Nat := 2
deriving DecidableEq, Repr

/-- repo.replace with slash replaced by dash, used in workflow ids. -/
def dashRepo (repo : String) : String :=
  String.mk (repo.toList.map fun c => if c = '/' then '-' else c)

/-- WorkflowManager.create_workflow: a fresh workflow at step ANALYSIS,
status PENDING, empty history, retry_count 0. -/
def create_workflow (now : Int) (issue_number : Int) (repo title description : String)
    (context : WorkflowContext) : WorkflowState :=
  { workflow_id := "workflow-" ++ dashRepo repo ++ "-" ++ toString issue_number ++
      "-" ++ toString now
    issue_number := issue_number
    repo := repo
    title := title
    description := description
    current_step := WorkflowStep.ANALYSIS
    status := WorkflowStatus.PENDING
    created_at := now
    updated_at := now
    step_history := []
    context := context
    retry_count := 0 }

/-- WorkflowManager.update_workflow on an existing workflow: stamp
updated_at, optionally overwrite status, merge context updates, append a
plain history entry when a step_result is supplied; returns True. -/
def update_workflow (now : Int) (status : Option WorkflowStatus)
    (context_updates : Option ContextUpdates)
    (step_result : Option (List (String × String))) (w : WorkflowState) :
    WorkflowState × Bool :=
  let w := { w with updated_at := now }
  let w := match status with
    | some s => { w with status := s }
    | none => w
  let w := match context_updates with
    | some u => { w with context := w.context.update u }
    | none => w
  let w := match step_result with
    | some r => { w with step_history := w.step_history ++
        [{ step := w.current_step.value, timestamp := now, result := some r }] }
    | none => w
  (w, true)

/-- WorkflowManager.advance_workflow on an existing workflow: append a
completed history entry when a step_result is supplied, move to the
table's next_step with status PENDING and retry_count 0 (COMPLETED when
the new step is COMPLETION), or mark COMPLETED in place when the table
has no next step; returns True. -/
def advance_workflow (now : Int) (step_result : Option (List (String × String)))
    (w : WorkflowState) : WorkflowState × Bool :=
  let w := match step_result with
    | some r => { w with step_history := w.step_history ++
        [({ step := w.current_step.value, timestamp := now, result := some r,
            status := some "completed" } : HistoryEntry)] }
    | none => w
  let w := match (step_configs w.current_step).next_step with
    | some next =>
      let w' := { w with current_step := next, status := WorkflowStatus.PENDING,
                         retry_count := 0 }
      if w'.current_step = WorkflowStep.COMPLETION then
        { w' with status := WorkflowStatus.COMPLETED }
      else w'
    | none => { w with status := WorkflowStatus.COMPLETED }
  ({ w with updated_at := now }, true)

/-- WorkflowManager.retry_current_step on an existing workflow: out of
retries means status FAILED with a failure_reason in context; otherwise
bump retry_count, set status PENDING, record last_error and a retry
history entry.  The returned flag is the final status being not FAILED. -/
def retry_current_step (now : Int) (error_message : Option String)
    (w : WorkflowState) : WorkflowState × Bool :=
  let w :=
    if w.retry_count ≥ w.max_retries then
      { w with status := WorkflowStatus.FAILED
               context := { w.context with
                 failure_reason := some ("Max retries exceeded: " ++ pyStr error_message) } }
    else
      { w with retry_count := w.retry_count + 1
               status := WorkflowStatus.PENDING
               context := { w.context with last_error := some error_message }
               step_history := w.step_history ++
                 [({ step := w.current_step.value
                     timestamp := now
                     result := some [("error", pyStr error_message),
                                     ("retry", toString (w.retry_count + 1))]
                     status := some "retry" } : HistoryEntry)] }
  let w := { w with updated_at := now }
  (w, decide (w.status ≠ WorkflowStatus.FAILED))

/-- WorkflowManager.mark_step_in_progress on an existing workflow. -/
def mark_step_in_progress (now : Int) (worker_id : String) (w : WorkflowState) :
    WorkflowState × Bool :=
  ({ w with status := WorkflowStatus.IN_PROGRESS
            context := { w.context with current_worker := some worker_id,
                                        step_started_at := some now }
            updated_at := now }, true)

/-- WorkflowManager.mark_step_waiting_for_feedback on an existing
workflow: refused (state unchanged, False) when the current step's config
forbids waiting; otherwise status WAITING_FOR_FEEDBACK with the feedback
context merged. -/
def mark_step_waiting_for_feedback (now : Int) (feedback_context : Option ContextUpdates)
    (w : WorkflowState) : WorkflowState × Bool :=
  if !(step_configs w.current_step).can_wait_for_feedback then
    (w, false)
  else
    let ctx := { w.context with feedback_requested_at := some now }
    let ctx := match feedback_context with
      | some u => ctx.update u
      | none => ctx
    ({ w with status := WorkflowStatus.WAITING_FOR_FEEDBACK
              context := ctx
              updated_at := now }, true)

/-- WorkflowManager._is_workflow_timed_out: False unless the workflow is
IN_PROGRESS and context carries a step_started_at older than the step's
max_duration. -/
def is_workflow_timed_out (now : Int) (w : WorkflowState) : Bool :=
  if w.status ≠ WorkflowStatus.IN_PROGRESS then
    false
  else
    match w.context.step_started_at with
    | none => false
    | some started => decide (now - started > (step_configs w.current_step).max_duration)

/-- WorkflowManager._worker_can_handle_step: the source returns True for
every worker and step. -/
def worker_can_handle_step (w : WorkflowState)
    (worker_capabilities : List (String × String)) : Bool :=
  true

/-- The step-work descriptor returned by get_next_work_item. -/
structure WorkDescriptor where
  workflow_id : String
  task_id : String
  workflow_step : String
  issue_number : Int
  repo : String
  title : String
  description : String
  template_path : Option String
  context : WorkflowContext
  step_history : List HistoryEntry
  retry_count : Nat
deriving DecidableEq, Repr

/-- The descriptor built for a workflow whose step is handed out. -/
def work_descriptor (w : WorkflowState) : WorkDescriptor :=
  { workflow_id := w.workflow_id
    task_id := w.workflow_id ++ "-" ++ w.current_step.value
    workflow_step := w.current_step.value
    issue_number := w.issue_number
    repo := w.repo
    title := w.title
    description := w.description
    template_path := (step_configs w.current_step).template
    context := w.context
    step_history := w.step_history
    retry_count := w.retry_count }

/-- WorkflowManager.get_next_work_item over the store's workflows (list
order is the source's glob order): skip any workflow not in PENDING
status; for a PENDING one, route it through retry_current_step and keep
scanning when _is_workflow_timed_out holds, skip it when the worker
cannot handle the step, and otherwise return its descriptor.  The
returned list is the workflow store after the call. -/
def get_next_work_item (now : Int) (worker_capabilities : List (String × String)) :
    List WorkflowState → Option WorkDescriptor × List WorkflowState
  | [] => (none, [])
  | w :: rest =>
    if w.status ≠ WorkflowStatus.PENDING then
      let r := get_next_work_item now worker_capabilities rest
      (r.1, w :: r.2)
    else if is_workflow_timed_out now w then
      let w' := (retry_current_step now (some "Workflow step timed out") w).1
      let r := get_next_work_item now worker_capabilities rest
      (r.1, w' :: r.2)
    else if !worker_can_handle_step w worker_capabilities then
      let r := get_next_work_item now worker_capabilities rest
      (r.1, w :: r.2)
    else
      (some (work_descriptor w), w :: rest)

/-- WorkflowManager.list_active_workflows keeps every workflow whose
status is not COMPLETED.  (The source then sorts by created_at
descending; the callers embedded here only test membership, which the
sort does not change, so the sort is omitted.) -/
def list_active_workflows (ws : List WorkflowState) : List WorkflowState :=
  ws.filter fun w => w.status ≠ WorkflowStatus.COMPLETED

/-! Reachability of workflow states through the engine's operations,
used for the WAITING_FOR_FEEDBACK invariant. -/

/-- Workflow states reachable from create_workflow through any sequence
of advance_workflow, retry_current_step, mark_step_in_progress,
mark_step_waiting_for_feedback and update_workflow calls. -/
inductive ReachableWorkflow : WorkflowState → Prop where
  | create (now issue_number : Int) (repo title description : String)
      (context : WorkflowContext) :
      ReachableWorkflow (create_workflow now issue_number repo title description context)
  | advance (now : Int) (step_result : Option (List (String × String)))
      (w : WorkflowState) :
      ReachableWorkflow w → ReachableWorkflow (advance_workflow now step_result w).1
  | retry (now : Int) (error_message : Option String) (w : WorkflowState) :
      ReachableWorkflow w → ReachableWorkflow (retry_current_step now error_message w).1
  | in_progress (now : Int) (worker_id : String) (w : WorkflowState) :
      ReachableWorkflow w → ReachableWorkflow (mark_step_in_progress now worker_id w).1
  | wait (now : Int) (feedback_context : Option ContextUpdates) (w : WorkflowState) :
      ReachableWorkflow w →
      ReachableWorkflow (mark_step_waiting_for_feedback now feedback_context w).1
  | update (now : Int) (status : Option WorkflowStatus)
      (context_updates : Option ContextUpdates)
      (step_result : Option (List (String × String))) (w : WorkflowState) :
      ReachableWorkflow w →
      ReachableWorkflow (update_workflow now status context_updates step_result w).1

/-- Same reachability, except that update_workflow is never called with
an explicit WAITING_FOR_FEEDBACK status argument (the amended form of
claim C6). -/
inductive SafeReachableWorkflow : WorkflowState → Prop where
  | create (now issue_number : Int) (repo title description : String)
      (context : WorkflowContext) :
      SafeReachableWorkflow (create_workflow now issue_number repo title description context)
  | advance (now : Int) (step_result : Option (List (String × String)))
      (w : WorkflowState) :
      SafeReachableWorkflow w → SafeReachableWorkflow (advance_workflow now step_result w).1
  | retry (now : Int) (error_message : Option String) (w : WorkflowState) :
      SafeReachableWorkflow w →
      SafeReachableWorkflow (retry_current_step now error_message w).1
  | in_progress (now : Int) (worker_id : String) (w : WorkflowState) :
      SafeReachableWorkflow w →
      SafeReachableWorkflow (mark_step_in_progress now worker_id w).1
  | wait (now : Int) (feedback_context : Option ContextUpdates) (w : WorkflowState) :
      SafeReachableWorkflow w →
      SafeReachableWorkflow (mark_step_waiting_for_feedback now feedback_context w).1
  | update (now : Int) (status : Option WorkflowStatus)
      (context_updates : Option ContextUpdates)
      (step_result : Option (List (String × String))) (w : WorkflowState) :
      status ≠ some WorkflowStatus.WAITING_FOR_FEEDBACK →
      SafeReachableWorkflow w →
      SafeReachableWorkflow (update_workflow now status context_updates step_result w).1

/-- A workflow whose ANALYSIS step has been running for two hours (the
step's max_duration is one hour): the concrete input for claim C3. -/
def stuck_workflow : WorkflowState :=
  { workflow_id := "workflow-a-b-7-0"
    issue_number := 7
    repo := "a/b"
    title := "stuck issue"
    description := "a step that overran its max_duration"
    current_step := WorkflowStep.ANALYSIS
    status := WorkflowStatus.IN_PROGRESS
    created_at := 0
    updated_at := 0
    step_history := []
    context := { current_worker := some "worker-1", step_started_at := some 0 }
    retry_count := 0
    max_retries := 2 }

/-- The concrete reachable state for claim C6: create at ANALYSIS,
advance twice to IMPLEMENTATION (whose config forbids waiting), then
update_workflow with an explicit WAITING_FOR_FEEDBACK status. -/
def c6_violation_state : WorkflowState :=
  (update_workflow 3 (some WorkflowStatus.WAITING_FOR_FEEDBACK) none none
    (advance_workflow 2 none
      (advance_workflow 1 none
        (create_workflow 0 42 "a/b" "t" "d" {})).1).1).1

/-! WorkerPool, from container_manager.py.  The Docker daemon is
external: image availability, container start results, per-container
polls and stop outcomes are parameters.  All bookkeeping runs under the
manager's lock, so each method is one atomic transition. -/

/-- Information about a running worker (container_manager.py, dataclass
WorkerInfo). -/
structure WorkerInfo where
  container_id : String
  container_name : String
  task_id : String
  worker_id : String
  status : String
  created_at : Int
  platforms : List (String × String)
  last_heartbeat : Option Int := none
deriving DecidableEq, Repr

/-- ContainerManager state: the active_workers dict keyed by container
id, and the configured cap. -/
structure PoolState where
  active_workers : List (String × WorkerInfo) := []
  max_workers : Nat := 5
deriving DecidableEq, Repr

/-- A freshly constructed ContainerManager: no active workers. -/
def init_pool (max_workers : Nat) : PoolState :=
  { active_workers := [], max_workers := max_workers }

/-- Python dict assignment d[k] = v on an association list. -/
def dict_insert (k : String) (v : WorkerInfo) :
    List (String × WorkerInfo) → List (String × WorkerInfo)
  | [] => [(k, v)]
  | (k', v') :: rest =>
    if k' = k then (k, v) :: rest else (k', v') :: dict_insert k v rest

/-- ContainerManager.can_spawn_worker. -/
def can_spawn_worker (s : PoolState) : Bool :=
  decide (s.active_workers.length < s.max_workers)

/-- Python s[:8] on a string. -/
def take8 (s : String) : String :=
  String.mk (s.toList.take 8)

/-- The platform set of a worker spec (create_worker_spec): the item's
requirements, defaulting to nodejs 18.16.0 when empty. -/
def worker_spec_platforms (item : WorkItem) : List (String × String) :=
  if item.platform_requirements.isEmpty then [("nodejs", "18.16.0")]
  else item.platform_requirements

/-- ContainerManager.spawn_worker: refuse (no side effect) when the cap
is reached; fail (no side effect) when the image cannot be ensured or the
container start raises (run_result none); otherwise register a WorkerInfo
under the container id and return it. -/
def spawn_worker (s : PoolState) (item : WorkItem) (now : Int)
    (image_ok : Bool) (run_result : Option String) : Option String × PoolState :=
  if !can_spawn_worker s then
    (none, s)
  else if !image_ok then
    (none, s)
  else
    match run_result with
    | none => (none, s)
    | some cid =>
      let info : WorkerInfo :=
        { container_id := cid
          container_name := "claude-worker-" ++ take8 item.task_id ++ "-" ++ toString now
          task_id := item.task_id
          worker_id := "worker-" ++ take8 item.task_id
          status := "running"
          created_at := now
          platforms := worker_spec_platforms item }
      (some cid, { s with active_workers := dict_insert cid info s.active_workers })

/-- The loop of ContainerManager.monitor_workers: poll each container
(none models docker NotFound); record a status update on change;
deregister workers that exited, died or vanished. -/
def monitor_list (poll : String → Option String) :
    List (String × WorkerInfo) → List (String × WorkerInfo) × List (String × String)
  | [] => ([], [])
  | (cid, wi) :: rest =>
    let r := monitor_list poll rest
    match poll cid with
    | some st =>
      let upd := if wi.status != st then [(wi.task_id, st)] else []
      if st == "exited" || st == "dead" then
        (r.1, upd ++ r.2)
      else
        ((cid, { wi with status := st }) :: r.1, upd ++ r.2)
    | none => (r.1, (wi.task_id, "removed") :: r.2)

/-- ContainerManager.monitor_workers. -/
def monitor_workers (poll : String → Option String) (s : PoolState) :
    PoolState × List (String × String) :=
  let r := monitor_list poll s.active_workers
  ({ s with active_workers := r.1 }, r.2)

/-- ContainerManager.stop_worker: stops the matching container but does
not deregister it (monitor_workers reclaims it later); returns whether a
matching worker was found and the stop call succeeded. -/
def stop_worker (task_id : String) (stop_ok : Bool) (s : PoolState) :
    PoolState × Bool :=
  (s, (s.active_workers.any fun p => p.2.task_id == task_id) && stop_ok)

/-- The loop of ContainerManager.cleanup_stale_workers: force-stop and
deregister each worker created before the cutoff; a failed stop (stop_ok
false, modelling the exception path) leaves the worker registered. -/
def cleanup_stale_list (cutoff : Int) (stop_ok : String → Bool) :
    List (String × WorkerInfo) → List (String × WorkerInfo) × Nat
  | [] => ([], 0)
  | (cid, wi) :: rest =>
    let r := cleanup_stale_list cutoff stop_ok rest
    if decide (wi.created_at < cutoff) then
      if stop_ok cid then (r.1, r.2 + 1) else ((cid, wi) :: r.1, r.2)
    else
      ((cid, wi) :: r.1, r.2)

/-- ContainerManager.cleanup_stale_workers. -/
def cleanup_stale_workers (now timeout_minutes : Int) (stop_ok : String → Bool)
    (s : PoolState) : PoolState × Nat :=
  let r := cleanup_stale_list (now - timeout_minutes) stop_ok s.active_workers
  ({ s with active_workers := r.1 }, r.2)

/-- The loop of ContainerManager.shutdown: stop and deregister every
worker; a failed stop leaves the worker registered. -/
def shutdown_list (stop_ok : String → Bool) :
    List (String × WorkerInfo) → List (String × WorkerInfo)
  | [] => []
  | (cid, wi) :: rest =>
    if stop_ok cid then shutdown_list stop_ok rest
    else (cid, wi) :: shutdown_list stop_ok rest

/-- ContainerManager.shutdown. -/
def pool_shutdown (stop_ok : String → Bool) (s : PoolState) : PoolState :=
  { s with active_workers := shutdown_list stop_ok s.active_workers }

/-- One worker-pool operation, with its external Docker outcomes. -/
inductive PoolOp where
  | spawn (item : WorkItem) (now : Int) (image_ok : Bool) (run_result : Option String)
  | monitor (poll : String → Option String)
  | stop (task_id : String) (stop_ok : Bool)
  | cleanup_stale (now timeout_minutes : Int) (stop_ok : String → Bool)
  | shutdown_all (stop_ok : String → Bool)

/-- Apply one worker-pool operation to the pool state. -/
def apply_pool_op (s : PoolState) : PoolOp → PoolState
  | .spawn item now image_ok run_result => (spawn_worker s item now image_ok run_result).2
  | .monitor poll => (monitor_workers poll s).1
  | .stop task_id stop_ok => (stop_worker task_id stop_ok s).1
  | .cleanup_stale now timeout_minutes stop_ok =>
    (cleanup_stale_workers now timeout_minutes stop_ok s).1
  | .shutdown_all stop_ok => pool_shutdown stop_ok s

/-- Apply a sequence of worker-pool operations. -/
def apply_pool_ops (ops : List PoolOp) (s : PoolState) : PoolState :=
  ops.foldl apply_pool_op s

/-! Orchestrator discovery cycle, from central_orchestrator.py.  The
GitHub CLI is external: the reported issue list is a parameter.  Platform
and priority inference for the workflow context is delegated to the
ctx_of parameter (the spec places detection heuristics out of scope). -/

/-- One issue reported by the external discovery source. -/
structure Issue where
  number : Int
  title : String := ""
  body : String := ""
  labels : List String := []
deriving DecidableEq, Repr

/-- The bot-status label filter in discover_github_issues. -/
def has_status_label (issue : Issue) : Bool :=
  ["bot:completed", "bot:failed", "bot:in-progress"].any fun st =>
    issue.labels.contains st

/-- CentralOrchestrator._find_existing_task: does an active workflow for
this repo and issue number already exist. -/
def find_existing_task (repo : String) (ws : List WorkflowState)
    (issue_number : Int) : Bool :=
  (list_active_workflows ws).any fun w =>
    w.issue_number == issue_number && w.repo == repo

/-- CentralOrchestrator.discover_github_issues: keep reported issues that
carry no bot-status label and have no existing active workflow. -/
def discover_github_issues (repo : String) (ws : List WorkflowState)
    (issues : List Issue) : List Issue :=
  issues.filter fun i => !has_status_label i && !find_existing_task repo ws i.number

/-- CentralOrchestrator.create_workflows: one create_workflow call per
discovered issue, against the orchestrator's configured repo. -/
def create_workflows (now : Int) (repo : String) (ctx_of : Issue → WorkflowContext)
    (issues : List Issue) (ws : List WorkflowState) : List WorkflowState :=
  ws ++ issues.map fun i => create_workflow now i.number repo i.title i.body (ctx_of i)

/-- CentralOrchestrator.run_discovery_cycle: discover, then create
workflows for the genuinely new issues. -/
def run_discovery_cycle (now : Int) (repo : String) (ctx_of : Issue → WorkflowContext)
    (issues : List Issue) (ws : List WorkflowState) : List WorkflowState :=
  create_workflows now repo ctx_of (discover_github_issues repo ws issues) ws

/-- The number of stored workflows for a given repo and issue number. -/
def count_issue_workflows (repo : String) (issue_number : Int)
    (ws : List WorkflowState) : Nat :=
  (ws.filter fun w => w.issue_number == issue_number && w.repo == repo).length

/-! Concrete states used to instantiate the theorems. -/

/-- A work item assigned 31 minutes before a cleanup with a 30-minute
timeout, with retries left. -/
def c2_item : WorkItem :=
  { task_id := "t1", status := TaskStatus.ASSIGNED, assigned_at := some 0,
    assigned_to := some "w1", retry_count := 0, max_retries := 3 }

/-- A stale work item whose retry budget is exhausted. -/
def c2_exhausted : WorkItem :=
  { task_id := "t2", status := TaskStatus.ASSIGNED, assigned_at := some 0,
    assigned_to := some "w2", retry_count := 3, max_retries := 3 }

/-- A work item assigned within the timeout. -/
def c2_fresh : WorkItem :=
  { task_id := "t3", status := TaskStatus.ASSIGNED, assigned_at := some 20,
    assigned_to := some "w3", retry_count := 0, max_retries := 3 }

/-- A queue with one stale retryable, one stale exhausted and one fresh
assigned item. -/
def c2_queue : QueueState :=
  { assigned := [c2_item, c2_exhausted, c2_fresh] }

/-- A workflow at PR_CREATION, ready to advance. -/
def c4_workflow : WorkflowState :=
  { workflow_id := "workflow-a-b-8-0", issue_number := 8, repo := "a/b",
    title := "t", description := "d", current_step := WorkflowStep.PR_CREATION,
    status := WorkflowStatus.PENDING, created_at := 0, updated_at := 0,
    step_history := [], context := {} }

/-- A freshly created workflow (retry_count 0, max_retries 2). -/
def c5_workflow : WorkflowState :=
  create_workflow 0 9 "a/b" "t" "d" {}

/-- A workflow at IMPLEMENTATION, whose step config forbids waiting for
feedback. -/
def c6_nowait_workflow : WorkflowState :=
  { workflow_id := "workflow-a-b-10-0", issue_number := 10, repo := "a/b",
    title := "t", description := "d", current_step := WorkflowStep.IMPLEMENTATION,
    status := WorkflowStatus.PENDING, created_at := 0, updated_at := 0,
    step_history := [], context := {} }

/-- A workflow already at the final COMPLETION step. -/
def c10_workflow : WorkflowState :=
  { workflow_id := "workflow-a-b-11-0", issue_number := 11, repo := "a/b",
    title := "t", description := "d", current_step := WorkflowStep.COMPLETION,
    status := WorkflowStatus.COMPLETED, created_at := 0, updated_at := 0,
    step_history := [], context := {}, retry_count := 1 }

/-- The single issue reported by discovery in the C8 instance. -/
def c8_issue : Issue :=
  { number := 42, title := "t", body := "b", labels := [] }

/-- A trivial context-inference function for the C8 instance. -/
def c8_ctx_of : Issue → WorkflowContext :=
  fun i => {}

/-- The single pending work item raced over in the C9 instance. -/
def c9_item : WorkItem :=
  { task_id := "a" }

/-- A queue holding exactly the C9 item as pending. -/
def c9_queue : QueueState :=
  { pending := [c9_item] }

/-! Theorems.  Claim ids refer to the frozen claim list for this
repository. -/

/-- The per-pair check inside _is_compatible agrees with the amended
per-pair predicate: required-side latest, exact match, or major.minor
agreement when both versions carry two components. -/
theorem pair_check_eq_amended (v wv : String) :
    (if v != "latest" && v != wv then versions_compatible v wv else true)
      = amended_version_ok v wv := by
  by_cases hl : v = "latest"
  · subst hl
    simp [amended_version_ok]
  · by_cases he : v = wv
    · subst he
      simp [amended_version_ok]
    · have h1 : (v != "latest") = true := by simp [bne, hl]
      have h2 : (v != wv) = true := by simp [bne, he]
      rw [h1, h2]
      simp only [Bool.and_self, if_pos]
      unfold amended_version_ok versions_compatible major_minor_ok
      have h3 : (v == "latest") = false := by simp [hl]
      have h4 : (v == wv) = false := by simp [he]
      rcases hp : versionParts v with _ | ⟨r0, rtl⟩
      · simp [hp, h3, h4]
      · rcases rtl with _ | ⟨r1, rtl'⟩
        · simp [hp, h3, h4]
        · rcases hq : versionParts wv with _ | ⟨a0, atl⟩
          · simp [hp, hq, h3, h4]
          · rcases atl with _ | ⟨a1, atl'⟩
            · simp [hp, hq, h3, h4]
            · simp [hp, hq, h3, h4]

/-- The requirement-by-requirement scan of _is_compatible agrees with the
amended scan. -/
theorem compat_all_eq_amended (reqs caps : List (String × String)) :
    (reqs.all fun pr =>
      match caps.lookup pr.1 with
      | none => false
      | some wv =>
        if pr.2 != "latest" && pr.2 != wv then versions_compatible pr.2 wv else true)
    = (reqs.all fun pr =>
      match caps.lookup pr.1 with
      | none => false
      | some wv => amended_version_ok pr.2 wv) := by
  induction reqs with
  | nil => rfl
  | cons pr rest ih =>
    simp only [List.all_cons, ih]
    congr 1
    cases h : caps.lookup pr.1 with
    | none => rfl
    | some wv => exact pair_check_eq_amended pr.2 wv

/-- C1 (corrected), counterexample: the claim states that a worker
declaring version latest for a platform satisfies any concrete required
version of that platform, so the claimed equivalence between dequeue's
compatibility check and the spec predicate fails on requirement
nodejs 18.16.0 against capability nodejs latest: the spec predicate
accepts it, _is_compatible rejects it. -/
theorem C1_counterexample :
    ¬ (is_compatible [("nodejs", "18.16.0")] [("nodejs", "latest")] = true ↔
       spec_compatible [("nodejs", "18.16.0")] [("nodejs", "latest")] = true) := by
  decide

/-- C1 (corrected, amended): dequeue's compatibility check holds exactly
when the item's requirement map is empty, or every required
(platform, version) pair finds the platform declared by the worker with
either the required version equal to latest, the two version strings
exactly equal, or both versions carrying major and minor components that
agree.  A worker-side latest is not a wildcard. -/
theorem C1_compatibility (platform_requirements worker_capabilities : List (String × String)) :
    is_compatible platform_requirements worker_capabilities
      = amended_compatible platform_requirements worker_capabilities := by
  unfold is_compatible amended_compatible
  cases platform_requirements with
  | nil => simp
  | cons pr rest =>
    simp only [List.isEmpty_cons, Bool.false_or, if_neg, Bool.false_eq_true,
      not_false_eq_true]
    cases worker_capabilities with
    | nil =>
      simp [List.lookup]
    | cons c cs =>
      simp only [List.isEmpty_cons, if_neg, Bool.false_eq_true, not_false_eq_true]
      exact compat_all_eq_amended (pr :: rest) (c :: cs)

/-- The assigned items kept by the cleanup scan are exactly the
non-stale ones. -/
theorem cleanup_scan_keep (now timeout_minutes cutoff : Int) (l : List WorkItem) :
    (cleanup_assigned_scan now timeout_minutes cutoff l).1
      = l.filter fun it => !is_stale cutoff it := by
  induction l with
  | nil => rfl
  | cons it rest ih =>
    by_cases hs : is_stale cutoff it
    · by_cases hr : it.retry_count < it.max_retries <;>
        simp [cleanup_assigned_scan, hs, hr, ih]
    · simp [cleanup_assigned_scan, hs, ih]

/-- The items the cleanup scan moves to pending are the stale ones with
retries left, each rewritten by the retry rewrite. -/
theorem cleanup_scan_pending (now timeout_minutes cutoff : Int) (l : List WorkItem) :
    (cleanup_assigned_scan now timeout_minutes cutoff l).2.1
      = (l.filter fun it =>
          is_stale cutoff it && decide (it.retry_count < it.max_retries)).map
          (stale_retry_item timeout_minutes) := by
  induction l with
  | nil => rfl
  | cons it rest ih =>
    by_cases hs : is_stale cutoff it
    · by_cases hr : it.retry_count < it.max_retries <;>
        simp [cleanup_assigned_scan, hs, hr, ih]
    · simp [cleanup_assigned_scan, hs, ih]

/-- The items the cleanup scan moves to failed are the stale ones out of
retries, each rewritten by the terminal rewrite. -/
theorem cleanup_scan_failed (now timeout_minutes cutoff : Int) (l : List WorkItem) :
    (cleanup_assigned_scan now timeout_minutes cutoff l).2.2.1
      = (l.filter fun it =>
          is_stale cutoff it && !decide (it.retry_count < it.max_retries)).map
          (stale_failed_item now) := by
  induction l with
  | nil => rfl
  | cons it rest ih =>
    by_cases hs : is_stale cutoff it
    · by_cases hr : it.retry_count < it.max_retries <;>
        simp [cleanup_assigned_scan, hs, hr, ih]
    · simp [cleanup_assigned_scan, hs, ih]

/-- The cleanup scan's count is the number of stale assigned items. -/
theorem cleanup_scan_count (now timeout_minutes cutoff : Int) (l : List WorkItem) :
    (cleanup_assigned_scan now timeout_minutes cutoff l).2.2.2
      = (l.filter fun it => is_stale cutoff it).length := by
  induction l with
  | nil => rfl
  | cons it rest ih =>
    by_cases hs : is_stale cutoff it
    · by_cases hr : it.retry_count < it.max_retries <;>
        simp [cleanup_assigned_scan, hs, hr, ih]
    · simp [cleanup_assigned_scan, hs, ih]

/-- C2 (corrected), counterexample: an item assigned 31 minutes before a
cleanup_stale_tasks call with a 30-minute timeout and retry_count 0 below
max_retries 3 is requeued into the pending partition, but with status
RETRY, not PENDING as the claim states. -/
theorem C2_counterexample :
    (cleanup_stale_tasks 31 30 { assigned := [c2_item] }).1.pending
      = [stale_retry_item 30 c2_item] ∧
    (stale_retry_item 30 c2_item).status = TaskStatus.RETRY ∧
    (stale_retry_item 30 c2_item).status ≠ TaskStatus.PENDING := by
  decide

/-- C2 (corrected, amended): for every assigned item whose assigned_at
is older than timeout_minutes at the time of the call, cleanup with
retries left requeues it into the pending partition with status RETRY,
retry_count incremented by one, assignment cleared and a non-null
explanatory error; out of retries it lands in the failed partition as
FAILED with a timeout message and a completed_at stamp; the call returns
the count of stale items, and items assigned within the timeout stay in
the assigned partition unchanged. -/
theorem C2_cleanup_stale_tasks (q : QueueState) (now timeout_minutes : Int) :
    (∀ item ∈ q.assigned,
       is_stale (now - timeout_minutes) item = true →
       item.retry_count < item.max_retries →
       ∃ it ∈ (cleanup_stale_tasks now timeout_minutes q).1.pending,
         it.task_id = item.task_id ∧
         it.status = TaskStatus.RETRY ∧
         it.retry_count = item.retry_count + 1 ∧
         it.assigned_at = none ∧
         it.assigned_to = none ∧
         it.error_message ≠ none) ∧
    (∀ item ∈ q.assigned,
       is_stale (now - timeout_minutes) item = true →
       ¬ item.retry_count < item.max_retries →
       ∃ it ∈ (cleanup_stale_tasks now timeout_minutes q).1.failed,
         it.task_id = item.task_id ∧
         it.status = TaskStatus.FAILED ∧
         it.completed_at = some now ∧
         it.error_message ≠ none) ∧
    ((cleanup_stale_tasks now timeout_minutes q).2
       = (q.assigned.filter fun item => is_stale (now - timeout_minutes) item).length) ∧
    (∀ item ∈ q.assigned,
       is_stale (now - timeout_minutes) item = false →
       item ∈ (cleanup_stale_tasks now timeout_minutes q).1.assigned) := by
  refine ⟨?_, ?_, ?_, ?_⟩
  · intro item hmem hst hr
    refine ⟨stale_retry_item timeout_minutes item, ?_,
      by simp [stale_retry_item], by simp [stale_retry_item],
      by simp [stale_retry_item], by simp [stale_retry_item],
      by simp [stale_retry_item], by simp [stale_retry_item]⟩
    show stale_retry_item timeout_minutes item ∈
      q.pending ++ (cleanup_assigned_scan now timeout_minutes (now - timeout_minutes) q.assigned).2.1
    rw [cleanup_scan_pending]
    refine List.mem_append_right _ (List.mem_map.mpr ⟨item, ?_, rfl⟩)
    exact List.mem_filter.mpr ⟨hmem, by simp [hst, hr]⟩
  · intro item hmem hst hr
    refine ⟨stale_failed_item now item, ?_,
      by simp [stale_failed_item], by simp [stale_failed_item],
      by simp [stale_failed_item], by simp [stale_failed_item]⟩
    show stale_failed_item now item ∈
      q.failed ++ (cleanup_assigned_scan now timeout_minutes (now - timeout_minutes) q.assigned).2.2.1
    rw [cleanup_scan_failed]
    refine List.mem_append_right _ (List.mem_map.mpr ⟨item, ?_, rfl⟩)
    exact List.mem_filter.mpr ⟨hmem, by simp [hst, hr]⟩
  · show (cleanup_assigned_scan now timeout_minutes (now - timeout_minutes) q.assigned).2.2.2 = _
    exact cleanup_scan_count now timeout_minutes (now - timeout_minutes) q.assigned
  · intro item hmem hst
    show item ∈ (cleanup_assigned_scan now timeout_minutes (now - timeout_minutes) q.assigned).1
    rw [cleanup_scan_keep]
    exact List.mem_filter.mpr ⟨hmem, by simp [hst]⟩

/-- C2 witness: the amended cleanup theorem instantiated on the concrete
three-item queue at time 31 with a 30-minute timeout. -/
theorem C2_witness :
    (∃ it ∈ (cleanup_stale_tasks 31 30 c2_queue).1.pending,
       it.task_id = c2_item.task_id ∧
       it.status = TaskStatus.RETRY ∧
       it.retry_count = c2_item.retry_count + 1 ∧
       it.assigned_at = none ∧
       it.assigned_to = none ∧
       it.error_message ≠ none) ∧
    (∃ it ∈ (cleanup_stale_tasks 31 30 c2_queue).1.failed,
       it.task_id = c2_exhausted.task_id ∧
       it.status = TaskStatus.FAILED ∧
       it.completed_at = some 31 ∧
       it.error_message ≠ none) ∧
    ((cleanup_stale_tasks 31 30 c2_queue).2
       = (c2_queue.assigned.filter fun item => is_stale (31 - 30) item).length) ∧
    c2_fresh ∈ (cleanup_stale_tasks 31 30 c2_queue).1.assigned := by
  obtain ⟨h1, h2, h3, h4⟩ := C2_cleanup_stale_tasks c2_queue 31 30
  exact ⟨h1 c2_item (by decide) (by decide) (by decide),
         h2 c2_exhausted (by decide) (by decide) (by decide),
         h3,
         h4 c2_fresh (by decide) (by decide)⟩

/-- C3 (code_bug): a workflow whose ANALYSIS step has been IN_PROGRESS
for 120 minutes against a 60-minute max_duration is indeed detected by
the timeout predicate, yet get_next_work_item neither returns it nor
routes it through retry_current_step: the scan skips every non-PENDING
workflow before the timeout check, and for the PENDING workflows that do
reach the check the predicate is always false (it requires IN_PROGRESS),
so the retry routing in the scan is unreachable and the stored workflow
is returned unchanged. -/
theorem C3_timeout_routing_dead :
    is_workflow_timed_out 120 stuck_workflow = true ∧
    stuck_workflow.status = WorkflowStatus.IN_PROGRESS ∧
    get_next_work_item 120 [] [stuck_workflow] = (none, [stuck_workflow]) ∧
    is_workflow_timed_out 120
      { stuck_workflow with status := WorkflowStatus.PENDING } = false := by
  decide

/-- Advancing over a step whose table row names a next step: the
workflow lands on that step with retry_count 0 and status PENDING, or
COMPLETED when the new step is COMPLETION. -/
theorem advance_workflow_next (now : Int) (step_result : Option (List (String × String)))
    (w : WorkflowState) (next : WorkflowStep)
    (hnext : (step_configs w.current_step).next_step = some next) :
    (advance_workflow now step_result w).2 = true ∧
    (advance_workflow now step_result w).1.current_step = next ∧
    (advance_workflow now step_result w).1.retry_count = 0 ∧
    (advance_workflow now step_result w).1.status =
      (if next = WorkflowStep.COMPLETION then WorkflowStatus.COMPLETED
       else WorkflowStatus.PENDING) ∧
    (advance_workflow now step_result w).1.step_history
      = w.step_history ++ (match step_result with
          | some r => [({ step := w.current_step.value, timestamp := now,
                          result := some r, status := some "completed" } : HistoryEntry)]
          | none => []) := by
  cases step_result with
  | none =>
    simp only [advance_workflow]
    rw [hnext]
    by_cases hc : next = WorkflowStep.COMPLETION <;> simp [hc]
  | some r =>
    simp only [advance_workflow]
    rw [hnext]
    by_cases hc : next = WorkflowStep.COMPLETION <;> simp [hc]

/-- C4 (confirmed): advancing a workflow whose current step has a next
step in the static table appends a completed history entry exactly when a
step result is supplied, moves current_step to that next step, resets
retry_count to 0 and the status to PENDING, or to COMPLETED when the new
step is COMPLETION; in particular PR_CREATION advances to
FEEDBACK_HANDLING, and advancing again reaches COMPLETION with overall
status COMPLETED. -/
theorem C4_advance_workflow (now now2 : Int)
    (step_result step_result2 : Option (List (String × String)))
    (w : WorkflowState) (next : WorkflowStep)
    (hnext : (step_configs w.current_step).next_step = some next) :
    ((advance_workflow now step_result w).2 = true ∧
     (advance_workflow now step_result w).1.current_step = next ∧
     (advance_workflow now step_result w).1.retry_count = 0 ∧
     (advance_workflow now step_result w).1.status =
       (if next = WorkflowStep.COMPLETION then WorkflowStatus.COMPLETED
        else WorkflowStatus.PENDING) ∧
     (advance_workflow now step_result w).1.step_history
       = w.step_history ++ (match step_result with
           | some r => [({ step := w.current_step.value, timestamp := now,
                           result := some r, status := some "completed" } : HistoryEntry)]
           | none => [])) ∧
    (w.current_step = WorkflowStep.PR_CREATION →
       (advance_workflow now step_result w).1.current_step
         = WorkflowStep.FEEDBACK_HANDLING ∧
       (advance_workflow now2 step_result2 (advance_workflow now step_result w).1).1.current_step
         = WorkflowStep.COMPLETION ∧
       (advance_workflow now2 step_result2 (advance_workflow now step_result w).1).1.status
         = WorkflowStatus.COMPLETED) := by
  refine ⟨advance_workflow_next now step_result w next hnext, ?_⟩
  intro hpr
  rw [hpr] at hnext
  have hfh : next = WorkflowStep.FEEDBACK_HANDLING := by
    have : (step_configs WorkflowStep.PR_CREATION).next_step
        = some WorkflowStep.FEEDBACK_HANDLING := rfl
    rw [this] at hnext
    exact (Option.some_injective _ hnext.symm)
  subst hfh
  obtain ⟨-, h1, -, -, -⟩ := advance_workflow_next now step_result w
    WorkflowStep.FEEDBACK_HANDLING (hpr ▸ rfl)
  refine ⟨h1, ?_, ?_⟩
  · obtain ⟨-, h2, -, -, -⟩ := advance_workflow_next now2 step_result2
      (advance_workflow now step_result w).1 WorkflowStep.COMPLETION (by rw [h1]; rfl)
    exact h2
  · obtain ⟨-, -, -, h3, -⟩ := advance_workflow_next now2 step_result2
      (advance_workflow now step_result w).1 WorkflowStep.COMPLETION (by rw [h1]; rfl)
    simpa using h3

/-- C4 witness: the advance theorem instantiated on the concrete
PR_CREATION workflow. -/
theorem C4_witness :
    ((advance_workflow 1 none c4_workflow).2 = true ∧
     (advance_workflow 1 none c4_workflow).1.current_step
       = WorkflowStep.FEEDBACK_HANDLING ∧
     (advance_workflow 1 none c4_workflow).1.retry_count = 0 ∧
     (advance_workflow 1 none c4_workflow).1.status =
       (if WorkflowStep.FEEDBACK_HANDLING = WorkflowStep.COMPLETION then
          WorkflowStatus.COMPLETED
        else WorkflowStatus.PENDING) ∧
     (advance_workflow 1 none c4_workflow).1.step_history
       = c4_workflow.step_history ++ []) ∧
    (c4_workflow.current_step = WorkflowStep.PR_CREATION →
       (advance_workflow 1 none c4_workflow).1.current_step
         = WorkflowStep.FEEDBACK_HANDLING ∧
       (advance_workflow 2 none (advance_workflow 1 none c4_workflow).1).1.current_step
         = WorkflowStep.COMPLETION ∧
       (advance_workflow 2 none (advance_workflow 1 none c4_workflow).1).1.status
         = WorkflowStatus.COMPLETED) :=
  C4_advance_workflow 1 2 none none c4_workflow WorkflowStep.FEEDBACK_HANDLING (by decide)

/-- The retry call on a workflow with retries left: bump, PENDING,
record the error and a retry history entry, return true. -/
theorem retry_current_step_lt (now : Int) (err : Option String) (w : WorkflowState)
    (h : w.retry_count < w.max_retries) :
    (retry_current_step now err w).2 = true ∧
    (retry_current_step now err w).1.status = WorkflowStatus.PENDING ∧
    (retry_current_step now err w).1.retry_count = w.retry_count + 1 ∧
    (retry_current_step now err w).1.max_retries = w.max_retries ∧
    (retry_current_step now err w).1.context.last_error = some err ∧
    (retry_current_step now err w).1.step_history
      = w.step_history ++
        [({ step := w.current_step.value, timestamp := now
            result := some [("error", pyStr err), ("retry", toString (w.retry_count + 1))]
            status := some "retry" } : HistoryEntry)] := by
  have hge : ¬ w.retry_count ≥ w.max_retries := not_le.mpr h
  simp [retry_current_step, hge]

/-- The retry call on a workflow out of retries: FAILED with a non-null
failure reason, return false. -/
theorem retry_current_step_ge (now : Int) (err : Option String) (w : WorkflowState)
    (h : ¬ w.retry_count < w.max_retries) :
    (retry_current_step now err w).2 = false ∧
    (retry_current_step now err w).1.status = WorkflowStatus.FAILED ∧
    (retry_current_step now err w).1.context.failure_reason ≠ none := by
  have hge : w.retry_count ≥ w.max_retries := not_lt.mp h
  simp [retry_current_step, hge]

/-- C5 (confirmed): retry_current_step with retries left increments
retry_count, sets status PENDING, records the error and a retry history
entry and returns true; out of retries it sets status FAILED with a
non-null terminal failure reason and returns false; consequently, on a
workflow with retry_count 0 and max_retries 2, three successive calls
leave status PENDING with retry_count 1 then 2, and the third call
returns false with status FAILED. -/
theorem C5_retry_current_step (now : Int) (err : Option String) (w : WorkflowState) :
    (w.retry_count < w.max_retries →
       (retry_current_step now err w).2 = true ∧
       (retry_current_step now err w).1.status = WorkflowStatus.PENDING ∧
       (retry_current_step now err w).1.retry_count = w.retry_count + 1 ∧
       (retry_current_step now err w).1.context.last_error = some err ∧
       (retry_current_step now err w).1.step_history
         = w.step_history ++
           [({ step := w.current_step.value, timestamp := now
               result := some [("error", pyStr err), ("retry", toString (w.retry_count + 1))]
               status := some "retry" } : HistoryEntry)]) ∧
    (¬ w.retry_count < w.max_retries →
       (retry_current_step now err w).2 = false ∧
       (retry_current_step now err w).1.status = WorkflowStatus.FAILED ∧
       (retry_current_step now err w).1.context.failure_reason ≠ none) ∧
    (w.retry_count = 0 → w.max_retries = 2 →
       (retry_current_step now err w).2 = true ∧
       (retry_current_step now err w).1.status = WorkflowStatus.PENDING ∧
       (retry_current_step now err w).1.retry_count = 1 ∧
       (retry_current_step now err (retry_current_step now err w).1).2 = true ∧
       (retry_current_step now err (retry_current_step now err w).1).1.status
         = WorkflowStatus.PENDING ∧
       (retry_current_step now err (retry_current_step now err w).1).1.retry_count = 2 ∧
       (retry_current_step now err
         (retry_current_step now err (retry_current_step now err w).1).1).2 = false ∧
       (retry_current_step now err
         (retry_current_step now err (retry_current_step now err w).1).1).1.status
         = WorkflowStatus.FAILED ∧
       (retry_current_step now err
         (retry_current_step now err (retry_current_step now err w).1).1).1.context.failure_reason
         ≠ none) := by
  refine ⟨?_, ?_, ?_⟩
  · intro h
    obtain ⟨h1, h2, h3, -, h5, h6⟩ := retry_current_step_lt now err w h
    exact ⟨h1, h2, h3, h5, h6⟩
  · intro h
    exact retry_current_step_ge now err w h
  · intro h0 hmax
    have ha : w.retry_count < w.max_retries := by rw [h0, hmax]; decide
    obtain ⟨a1, a2, a3, a4, -, -⟩ := retry_current_step_lt now err w ha
    set w1 := (retry_current_step now err w).1 with hw1
    have hb : w1.retry_count < w1.max_retries := by
      rw [a3, a4, h0, hmax]; decide
    obtain ⟨b1, b2, b3, b4, -, -⟩ := retry_current_step_lt now err w1 hb
    set w2 := (retry_current_step now err w1).1 with hw2
    have hc : ¬ w2.retry_count < w2.max_retries := by
      rw [b3, a3, b4, a4, h0, hmax]; decide
    obtain ⟨c1, c2, c3⟩ := retry_current_step_ge now err w2 hc
    refine ⟨a1, a2, ?_, b1, b2, ?_, c1, c2, c3⟩
    · rw [a3, h0]
    · rw [b3, a3, h0]

/-- C5 witness: the retry theorem instantiated on a freshly created
workflow (retry_count 0, max_retries 2). -/
theorem C5_witness :
    (retry_current_step 1 (some "boom") c5_workflow).2 = true ∧
    (retry_current_step 1 (some "boom") c5_workflow).1.status = WorkflowStatus.PENDING ∧
    (retry_current_step 1 (some "boom") c5_workflow).1.retry_count = 1 ∧
    (retry_current_step 1 (some "boom")
      (retry_current_step 1 (some "boom") c5_workflow).1).2 = true ∧
    (retry_current_step 1 (some "boom")
      (retry_current_step 1 (some "boom") c5_workflow).1).1.status
      = WorkflowStatus.PENDING ∧
    (retry_current_step 1 (some "boom")
      (retry_current_step 1 (some "boom") c5_workflow).1).1.retry_count = 2 ∧
    (retry_current_step 1 (some "boom")
      (retry_current_step 1 (some "boom")
        (retry_current_step 1 (some "boom") c5_workflow).1).1).2 = false ∧
    (retry_current_step 1 (some "boom")
      (retry_current_step 1 (some "boom")
        (retry_current_step 1 (some "boom") c5_workflow).1).1).1.status
      = WorkflowStatus.FAILED ∧
    (retry_current_step 1 (some "boom")
      (retry_current_step 1 (some "boom")
        (retry_current_step 1 (some "boom") c5_workflow).1).1).1.context.failure_reason
      ≠ none :=
  (C5_retry_current_step 1 (some "boom") c5_workflow).2.2 (by decide) (by decide)

/-- update_workflow never moves current_step, and its resulting status
is the explicit argument when one is given and unchanged otherwise. -/
theorem update_workflow_fields (now : Int) (st : Option WorkflowStatus)
    (cu : Option ContextUpdates) (sr : Option (List (String × String)))
    (w : WorkflowState) :
    (update_workflow now st cu sr w).1.current_step = w.current_step ∧
    (update_workflow now st cu sr w).1.status
      = (match st with | some s => s | none => w.status) := by
  cases st <;> cases cu <;> cases sr <;> simp [update_workflow]

/-- advance_workflow never lands on WAITING_FOR_FEEDBACK. -/
theorem advance_workflow_status_not_waiting (now : Int)
    (sr : Option (List (String × String))) (w : WorkflowState) :
    (advance_workflow now sr w).1.status ≠ WorkflowStatus.WAITING_FOR_FEEDBACK := by
  cases sr with
  | none =>
    simp only [advance_workflow]
    cases hn : (step_configs w.current_step).next_step with
    | none => simp
    | some next =>
      by_cases hc : next = WorkflowStep.COMPLETION <;> simp [hc]
  | some r =>
    simp only [advance_workflow]
    cases hn : (step_configs w.current_step).next_step with
    | none => simp
    | some next =>
      by_cases hc : next = WorkflowStep.COMPLETION <;> simp [hc]

/-- retry_current_step never lands on WAITING_FOR_FEEDBACK. -/
theorem retry_current_step_status_not_waiting (now : Int) (err : Option String)
    (w : WorkflowState) :
    (retry_current_step now err w).1.status ≠ WorkflowStatus.WAITING_FOR_FEEDBACK := by
  by_cases h : w.retry_count ≥ w.max_retries <;> simp [retry_current_step, h]

/-- mark_step_waiting_for_feedback: refused without state change when
the step's config forbids waiting; otherwise the step is unchanged and
the status becomes WAITING_FOR_FEEDBACK. -/
theorem mark_step_waiting_fields (now : Int) (fc : Option ContextUpdates)
    (w : WorkflowState) :
    ((step_configs w.current_step).can_wait_for_feedback = false →
       mark_step_waiting_for_feedback now fc w = (w, false)) ∧
    ((step_configs w.current_step).can_wait_for_feedback = true →
       (mark_step_waiting_for_feedback now fc w).1.current_step = w.current_step ∧
       (mark_step_waiting_for_feedback now fc w).1.status
         = WorkflowStatus.WAITING_FOR_FEEDBACK) := by
  constructor
  · intro h
    simp [mark_step_waiting_for_feedback, h]
  · intro h
    cases fc <;> simp [mark_step_waiting_for_feedback, h]

/-- C6 (corrected), counterexample: the claim's operation set includes
update_workflow, but update_workflow applies any explicit status without
consulting the step table, so a reachable workflow sits in
WAITING_FOR_FEEDBACK at IMPLEMENTATION, whose config forbids waiting:
create it, advance twice, then update with status WAITING_FOR_FEEDBACK. -/
theorem C6_counterexample :
    ReachableWorkflow c6_violation_state ∧
    c6_violation_state.status = WorkflowStatus.WAITING_FOR_FEEDBACK ∧
    (step_configs c6_violation_state.current_step).can_wait_for_feedback = false := by
  refine ⟨?_, by decide, by decide⟩
  exact ReachableWorkflow.update 3 (some WorkflowStatus.WAITING_FOR_FEEDBACK) none none _
    (ReachableWorkflow.advance 2 none _
      (ReachableWorkflow.advance 1 none _
        (ReachableWorkflow.create 0 42 "a/b" "t" "d" {})))

/-- C6 (corrected, amended): in every workflow state reachable from
create_workflow through advance_workflow, retry_current_step,
mark_step_in_progress, mark_step_waiting_for_feedback and those
update_workflow calls whose status argument is not WAITING_FOR_FEEDBACK,
a WAITING_FOR_FEEDBACK status implies the current step's config allows
waiting; and mark_step_waiting_for_feedback returns false and leaves the
workflow unchanged on a step whose config forbids waiting.  An
update_workflow call with an explicit WAITING_FOR_FEEDBACK status can
break the invariant. -/
theorem C6_waiting_invariant :
    (∀ w : WorkflowState, SafeReachableWorkflow w →
       w.status = WorkflowStatus.WAITING_FOR_FEEDBACK →
       (step_configs w.current_step).can_wait_for_feedback = true) ∧
    (∀ (now : Int) (fc : Option ContextUpdates) (w : WorkflowState),
       (step_configs w.current_step).can_wait_for_feedback = false →
       mark_step_waiting_for_feedback now fc w = (w, false)) := by
  constructor
  · intro w hreach
    induction hreach with
    | create now issue_number repo title description context =>
      intro h
      simp [create_workflow] at h
    | advance now sr w hw ih =>
      intro h
      exact absurd h (advance_workflow_status_not_waiting now sr w)
    | retry now err w hw ih =>
      intro h
      exact absurd h (retry_current_step_status_not_waiting now err w)
    | in_progress now worker_id w hw ih =>
      intro h
      simp [mark_step_in_progress] at h
    | wait now fc w hw ih =>
      intro h
      by_cases hc : (step_configs w.current_step).can_wait_for_feedback
      · rw [((mark_step_waiting_fields now fc w).2 hc).1]
        exact hc
      · have heq := (mark_step_waiting_fields now fc w).1 (by simp [hc])
        rw [heq] at h ⊢
        exact ih h
    | update now st cu sr w hne hw ih =>
      intro h
      obtain ⟨hstep, hstat⟩ := update_workflow_fields now st cu sr w
      rw [hstep]
      cases st with
      | some s =>
        rw [hstat] at h
        simp only at h
        exact absurd (by rw [h]) hne
      | none =>
        rw [hstat] at h
        exact ih h
  · intro now fc w h
    exact (mark_step_waiting_fields now fc w).1 h

/-- C6 witness: a workflow put into WAITING_FOR_FEEDBACK at ANALYSIS by
mark_step_waiting_for_feedback satisfies the invariant, and the same call
is refused unchanged at IMPLEMENTATION. -/
theorem C6_witness :
    (step_configs ((mark_step_waiting_for_feedback 1 none
        (create_workflow 0 1 "a/b" "t" "d" {})).1).current_step).can_wait_for_feedback
      = true ∧
    mark_step_waiting_for_feedback 2 none c6_nowait_workflow
      = (c6_nowait_workflow, false) :=
  ⟨C6_waiting_invariant.1 _
     (SafeReachableWorkflow.wait 1 none _
       (SafeReachableWorkflow.create 0 1 "a/b" "t" "d" {}))
     (by decide),
   C6_waiting_invariant.2 2 none c6_nowait_workflow (by decide)⟩

/-- Dict assignment grows the active-worker map by at most one entry. -/
theorem dict_insert_length_le (k : String) (v : WorkerInfo)
    (l : List (String × WorkerInfo)) :
    (dict_insert k v l).length ≤ l.length + 1 := by
  induction l with
  | nil => simp [dict_insert]
  | cons p rest ih =>
    by_cases h : p.1 = k <;> simp [dict_insert, h] <;> omega

/-- The monitor loop never adds workers. -/
theorem monitor_list_length_le (poll : String → Option String)
    (l : List (String × WorkerInfo)) :
    (monitor_list poll l).1.length ≤ l.length := by
  induction l with
  | nil => simp [monitor_list]
  | cons p rest ih =>
    obtain ⟨cid, wi⟩ := p
    simp only [monitor_list]
    cases poll cid with
    | none => simpa using Nat.le_succ_of_le ih
    | some st =>
      by_cases h : (st == "exited" || st == "dead") = true
      · simpa [h] using Nat.le_succ_of_le ih
      · simpa [h] using ih

/-- The stale-worker sweep never adds workers. -/
theorem cleanup_stale_list_length_le (cutoff : Int) (stop_ok : String → Bool)
    (l : List (String × WorkerInfo)) :
    (cleanup_stale_list cutoff stop_ok l).1.length ≤ l.length := by
  induction l with
  | nil => simp [cleanup_stale_list]
  | cons p rest ih =>
    obtain ⟨cid, wi⟩ := p
    by_cases hs : wi.created_at < cutoff
    · by_cases hk : stop_ok cid = true
      · simpa [cleanup_stale_list, hs, hk] using Nat.le_succ_of_le ih
      · simpa [cleanup_stale_list, hs, hk] using ih
    · simpa [cleanup_stale_list, hs] using ih

/-- The shutdown loop never adds workers. -/
theorem shutdown_list_length_le (stop_ok : String → Bool)
    (l : List (String × WorkerInfo)) :
    (shutdown_list stop_ok l).length ≤ l.length := by
  induction l with
  | nil => simp [shutdown_list]
  | cons p rest ih =>
    obtain ⟨cid, wi⟩ := p
    by_cases hk : stop_ok cid = true
    · simpa [shutdown_list, hk] using Nat.le_succ_of_le ih
    · simpa [shutdown_list, hk] using ih

/-- Every pool operation preserves the configured cap and keeps the
active-worker count within it. -/
theorem apply_pool_op_inv (s : PoolState) (op : PoolOp)
    (h : s.active_workers.length ≤ s.max_workers) :
    (apply_pool_op s op).max_workers = s.max_workers ∧
    (apply_pool_op s op).active_workers.length ≤ s.max_workers := by
  cases op with
  | spawn item now image_ok run_result =>
    by_cases hc : can_spawn_worker s = true
    · by_cases hi : image_ok = true
      · cases hr : run_result with
        | none => simp [apply_pool_op, spawn_worker, hc, hi, hr, h]
        | some cid =>
          have hlt : s.active_workers.length < s.max_workers := by
            simpa [can_spawn_worker] using hc
          refine ⟨by simp [apply_pool_op, spawn_worker, hc, hi, hr], ?_⟩
          have := dict_insert_length_le cid
            { container_id := cid
              container_name := "claude-worker-" ++ take8 item.task_id ++ "-" ++ toString now
              task_id := item.task_id
              worker_id := "worker-" ++ take8 item.task_id
              status := "running"
              created_at := now
              platforms := worker_spec_platforms item } s.active_workers
          simp only [apply_pool_op, spawn_worker, hc, hi, hr]
          simp only [Bool.not_true, Bool.false_eq_true, if_false]
          omega
      · simp [apply_pool_op, spawn_worker, hc, hi, h]
    · simp [apply_pool_op, spawn_worker, hc, h]
  | monitor poll =>
    refine ⟨rfl, ?_⟩
    exact le_trans (monitor_list_length_le poll s.active_workers) h
  | stop task_id stop_ok =>
    exact ⟨rfl, h⟩
  | cleanup_stale now timeout_minutes stop_ok =>
    refine ⟨rfl, ?_⟩
    exact le_trans (cleanup_stale_list_length_le (now - timeout_minutes) stop_ok
      s.active_workers) h
  | shutdown_all stop_ok =>
    refine ⟨rfl, ?_⟩
    exact le_trans (shutdown_list_length_le stop_ok s.active_workers) h

/-- Sequences of pool operations preserve the cap invariant. -/
theorem apply_pool_ops_inv (ops : List PoolOp) (s : PoolState)
    (h : s.active_workers.length ≤ s.max_workers) :
    (apply_pool_ops ops s).max_workers = s.max_workers ∧
    (apply_pool_ops ops s).active_workers.length ≤ s.max_workers := by
  induction ops generalizing s with
  | nil => exact ⟨rfl, h⟩
  | cons op rest ih =>
    obtain ⟨hmax, hlen⟩ := apply_pool_op_inv s op h
    have step : apply_pool_ops (op :: rest) s = apply_pool_ops rest (apply_pool_op s op) := rfl
    rw [step]
    obtain ⟨ih1, ih2⟩ := ih (apply_pool_op s op) (by rw [hmax]; exact hlen)
    exact ⟨by rw [ih1, hmax], by rw [hmax] at ih2; exact ih2⟩

/-- C7 (confirmed): spawn_worker returns no worker id and leaves the
pool untouched whenever the active-worker count already equals
max_workers; and over any sequence of spawn, monitor, stop, stale-cleanup
and shutdown operations from a fresh pool, the number of registered
active workers never exceeds the configured max_workers. -/
theorem C7_worker_cap :
    (∀ (s : PoolState) (item : WorkItem) (now : Int) (image_ok : Bool)
       (run_result : Option String),
       s.active_workers.length = s.max_workers →
       spawn_worker s item now image_ok run_result = (none, s)) ∧
    (∀ (max_workers : Nat) (ops : List PoolOp),
       (apply_pool_ops ops (init_pool max_workers)).active_workers.length ≤ max_workers) := by
  constructor
  · intro s item now image_ok run_result h
    have hc : can_spawn_worker s = false := by
      simp [can_spawn_worker, h]
    simp [spawn_worker, hc]
  · intro max_workers ops
    exact (apply_pool_ops_inv ops (init_pool max_workers) (by simp [init_pool])).2

/-- C7 witness: a pool at its cap (zero workers, cap zero) refuses a
spawn, and a concrete operation sequence from a fresh one-slot pool stays
within the cap. -/
theorem C7_witness :
    spawn_worker { active_workers := [], max_workers := 0 }
      { task_id := "t" } 0 true (some "c") = (none, { active_workers := [], max_workers := 0 }) ∧
    (apply_pool_ops
      [PoolOp.spawn { task_id := "t" } 0 true (some "c1"),
       PoolOp.spawn { task_id := "u" } 0 true (some "c2"),
       PoolOp.monitor fun cid => some "exited"]
      (init_pool 1)).active_workers.length ≤ 1 :=
  ⟨C7_worker_cap.1 { active_workers := [], max_workers := 0 }
     { task_id := "t" } 0 true (some "c") (by decide),
   C7_worker_cap.2 1 _⟩

/-- An existing active workflow for an issue stays found after more
workflows are appended to the store. -/
theorem find_existing_task_append (repo : String) (ws l : List WorkflowState) (n : Int)
    (h : find_existing_task repo ws n = true) :
    find_existing_task repo (ws ++ l) n = true := by
  simp only [find_existing_task, list_active_workflows] at h
  simp only [find_existing_task, list_active_workflows, List.filter_append,
    List.any_append]
  rw [Bool.or_eq_true]
  exact Or.inl h

/-- The workflows created for a batch of issues contribute, per
(repo, issue) pair, exactly the batch's occurrences of that issue
number. -/
theorem count_created_workflows (now : Int) (repo : String)
    (ctx_of : Issue → WorkflowContext) (l : List Issue) (n : Int) :
    count_issue_workflows repo n
      (l.map fun i => create_workflow now i.number repo i.title i.body (ctx_of i))
      = (l.filter fun i => i.number == n).length := by
  induction l with
  | nil => rfl
  | cons i rest ih =>
    by_cases h : (i.number == n) = true
    · simp [count_issue_workflows, List.filter_cons, create_workflow, h] at ih ⊢
      exact ih
    · simp [count_issue_workflows, List.filter_cons, create_workflow, h] at ih ⊢
      exact ih

/-- A batch with pairwise-distinct issue numbers mentions each number at
most once. -/
theorem nodup_issue_count_le_one (issues : List Issue) (n : Int)
    (h : (issues.map Issue.number).Nodup) :
    (issues.filter fun i => i.number == n).length ≤ 1 := by
  induction issues with
  | nil => simp
  | cons i rest ih =>
    simp only [List.map_cons, List.nodup_cons] at h
    obtain ⟨hnot, hrest⟩ := h
    by_cases he : (i.number == n) = true
    · have hnone : rest.filter (fun j => j.number == n) = [] := by
        apply List.filter_eq_nil_iff.mpr
        intro j hj hbeq
        exact hnot (List.mem_map.mpr ⟨j, hj,
          by rw [beq_iff_eq.mp hbeq, beq_iff_eq.mp he]⟩)
      simp [List.filter_cons, he, hnone]
    · simp only [List.filter_cons, he, if_neg]
      simpa using ih hrest

/-- C8 (confirmed): when the external source reports a set of issues
with distinct issue numbers, one discovery cycle creates at most one
workflow per reported issue beyond those already stored, and a second
cycle over the same report creates nothing: every reported issue is
either label-filtered or deduplicated against the active workflows by
(repository, issue number). -/
theorem C8_discovery_idempotent (now1 now2 : Int) (repo : String)
    (ctx_of : Issue → WorkflowContext) (issues : List Issue) (ws : List WorkflowState)
    (hnodup : (issues.map Issue.number).Nodup) :
    run_discovery_cycle now2 repo ctx_of issues
        (run_discovery_cycle now1 repo ctx_of issues ws)
      = run_discovery_cycle now1 repo ctx_of issues ws ∧
    ∀ i ∈ issues,
      count_issue_workflows repo i.number (run_discovery_cycle now1 repo ctx_of issues ws)
        ≤ count_issue_workflows repo i.number ws + 1 := by
  have hfound : ∀ i ∈ issues, has_status_label i = false →
      find_existing_task repo (run_discovery_cycle now1 repo ctx_of issues ws)
        i.number = true := by
    intro i hi hl
    by_cases hf : find_existing_task repo ws i.number = true
    · exact find_existing_task_append repo ws _ i.number hf
    · have hmemD : i ∈ discover_github_issues repo ws issues :=
        List.mem_filter.mpr ⟨hi, by simp [hl, hf]⟩
      apply List.any_eq_true.mpr
      refine ⟨create_workflow now1 i.number repo i.title i.body (ctx_of i), ?_, ?_⟩
      · apply List.mem_filter.mpr
        refine ⟨?_, by simp [create_workflow]⟩
        exact List.mem_append_right _ (List.mem_map.mpr ⟨i, hmemD, rfl⟩)
      · simp [create_workflow]
  have hempty : discover_github_issues repo
      (run_discovery_cycle now1 repo ctx_of issues ws) issues = [] := by
    apply List.filter_eq_nil_iff.mpr
    intro i hi
    by_cases hl : has_status_label i = true
    · simp [hl]
    · simp [hl, hfound i hi (by simpa using hl)]
  constructor
  · show create_workflows now2 repo ctx_of _ _ = _
    rw [hempty]
    simp [create_workflows]
  · intro i hi
    show count_issue_workflows repo i.number (create_workflows now1 repo ctx_of _ ws) ≤ _
    have hsplit : count_issue_workflows repo i.number
        (create_workflows now1 repo ctx_of (discover_github_issues repo ws issues) ws)
        = count_issue_workflows repo i.number ws +
          count_issue_workflows repo i.number
            ((discover_github_issues repo ws issues).map fun j =>
              create_workflow now1 j.number repo j.title j.body (ctx_of j)) := by
      simp [create_workflows, count_issue_workflows, List.filter_append]
    rw [hsplit, count_created_workflows]
    have hsub : ((discover_github_issues repo ws issues).filter
          fun j => j.number == i.number).length
        ≤ (issues.filter fun j => j.number == i.number).length := by
      exact ((List.filter_sublist issues).filter _).length_le
    have hle := nodup_issue_count_le_one issues i.number hnodup
    omega

/-- C8 witness: the idempotence theorem instantiated on a single
reported issue number 42 for repository a slash b over an empty store. -/
theorem C8_witness :
    run_discovery_cycle 1 "a/b" c8_ctx_of [c8_issue]
        (run_discovery_cycle 0 "a/b" c8_ctx_of [c8_issue] [])
      = run_discovery_cycle 0 "a/b" c8_ctx_of [c8_issue] [] ∧
    ∀ i ∈ [c8_issue],
      count_issue_workflows "a/b" i.number (run_discovery_cycle 0 "a/b" c8_ctx_of [c8_issue] [])
        ≤ count_issue_workflows "a/b" i.number [] + 1 :=
  C8_discovery_idempotent 0 1 "a/b" c8_ctx_of [c8_issue] [] (by decide)

/-- Dequeue on a queue with no pending items returns nothing and leaves
the queue unchanged. -/
theorem dequeue_pending_nil (now : Int) (worker_id : String)
    (caps : List (String × String)) (q : QueueState) (h : q.pending = []) :
    dequeue now worker_id caps q = (none, q) := by
  simp [dequeue, h, dequeue_scan]

/-- A run of dequeue calls over an empty pending pool returns nothing to
every caller and leaves the queue unchanged. -/
theorem run_dequeues_pending_nil (now : Int)
    (callers : List (String × List (String × String))) (q : QueueState)
    (h : q.pending = []) :
    run_dequeues now callers q = (callers.map fun c => none, q) := by
  induction callers generalizing q with
  | nil => simp [run_dequeues]
  | cons c rest ih =>
    obtain ⟨worker_id, caps⟩ := c
    simp [run_dequeues, dequeue_pending_nil now worker_id caps q h, ih q h]

/-- A none-producing map contains no some results. -/
theorem countP_map_none (callers : List (String × List (String × String))) :
    ((callers.map fun c => (none : Option WorkItem)).countP fun r => r.isSome) = 0 := by
  apply List.countP_eq_zero.mpr
  intro r hr
  obtain ⟨c, -, rfl⟩ := List.mem_map.mp hr
  simp

/-- C9 (confirmed): the queue lock serialises concurrent dequeue calls,
so a run of calls racing on a single pending item compatible with each
caller hands the item to exactly the first serialised caller — rewritten
to ASSIGNED, bound to that caller's worker id, stamped with assigned_at,
and removed from the pending pool in the same transition — and every
other call receives nothing. -/
theorem C9_dequeue_exactly_once (now : Int) (item : WorkItem) (q : QueueState)
    (worker_id : String) (caps : List (String × String))
    (rest : List (String × List (String × String)))
    (hpending : q.pending = [item])
    (hcompat : is_compatible item.platform_requirements caps = true) :
    (run_dequeues now ((worker_id, caps) :: rest) q).1
      = some (assigned_item now worker_id item) :: (rest.map fun c => none) ∧
    (run_dequeues now ((worker_id, caps) :: rest) q).2.pending = [] ∧
    assigned_item now worker_id item
      ∈ (run_dequeues now ((worker_id, caps) :: rest) q).2.assigned ∧
    ((run_dequeues now ((worker_id, caps) :: rest) q).1.countP fun r => r.isSome) = 1 := by
  have hdq : dequeue now worker_id caps q
      = (some (assigned_item now worker_id item),
         { q with pending := []
                  assigned := q.assigned ++ [assigned_item now worker_id item] }) := by
    simp [dequeue, hpending, dequeue_scan, hcompat]
  have hrest := run_dequeues_pending_nil now rest
    { q with pending := []
             assigned := q.assigned ++ [assigned_item now worker_id item] } rfl
  have hrun : run_dequeues now ((worker_id, caps) :: rest) q
      = (some (assigned_item now worker_id item) :: (rest.map fun c => none),
         { q with pending := []
                  assigned := q.assigned ++ [assigned_item now worker_id item] }) := by
    simp [run_dequeues, hdq, hrest]
  refine ⟨by rw [hrun], by rw [hrun], ?_, ?_⟩
  · rw [hrun]
    exact List.mem_append_right _ (List.mem_singleton.mpr rfl)
  · rw [hrun]
    simp [List.countP_cons, countP_map_none rest]

/-- C9 witness: two callers racing on one requirement-free pending item;
the first serialised caller receives it, the second receives nothing. -/
theorem C9_witness :
    (run_dequeues 5 [("w1", []), ("w2", [])] c9_queue).1
      = some (assigned_item 5 "w1" c9_item) :: ([("w2", ([] : List (String × String)))].map fun c => none) ∧
    (run_dequeues 5 [("w1", []), ("w2", [])] c9_queue).2.pending = [] ∧
    assigned_item 5 "w1" c9_item
      ∈ (run_dequeues 5 [("w1", []), ("w2", [])] c9_queue).2.assigned ∧
    ((run_dequeues 5 [("w1", []), ("w2", [])] c9_queue).1.countP fun r => r.isSome) = 1 :=
  C9_dequeue_exactly_once 5 c9_item c9_queue "w1" [] [("w2", [])] (by decide) (by decide)

/-- Advancing over a step whose table row has no next step marks the
workflow COMPLETED in place. -/
theorem advance_workflow_final (now : Int) (sr : Option (List (String × String)))
    (w : WorkflowState) (hnext : (step_configs w.current_step).next_step = none) :
    (advance_workflow now sr w).2 = true ∧
    (advance_workflow now sr w).1.current_step = w.current_step ∧
    (advance_workflow now sr w).1.status = WorkflowStatus.COMPLETED ∧
    (advance_workflow now sr w).1.retry_count = w.retry_count := by
  cases sr with
  | none =>
    simp only [advance_workflow]
    rw [hnext]
    simp
  | some r =>
    simp only [advance_workflow]
    rw [hnext]
    simp

/-- C10 (confirmed): advance_workflow on a workflow already at
COMPLETION (the step whose table row has no next step) returns true,
sets status COMPLETED, leaves current_step at COMPLETION, keeps
retry_count, and a second advance changes neither current_step nor
status. -/
theorem C10_advance_completion (now now2 : Int)
    (step_result step_result2 : Option (List (String × String)))
    (w : WorkflowState) (hstep : w.current_step = WorkflowStep.COMPLETION) :
    (step_configs WorkflowStep.COMPLETION).next_step = none ∧
    (advance_workflow now step_result w).2 = true ∧
    (advance_workflow now step_result w).1.status = WorkflowStatus.COMPLETED ∧
    (advance_workflow now step_result w).1.current_step = WorkflowStep.COMPLETION ∧
    (advance_workflow now step_result w).1.retry_count = w.retry_count ∧
    (advance_workflow now2 step_result2 (advance_workflow now step_result w).1).1.current_step
      = (advance_workflow now step_result w).1.current_step ∧
    (advance_workflow now2 step_result2 (advance_workflow now step_result w).1).1.status
      = (advance_workflow now step_result w).1.status := by
  obtain ⟨h1, h2, h3, h4⟩ := advance_workflow_final now step_result w (by rw [hstep]; rfl)
  have hstep2 : (advance_workflow now step_result w).1.current_step
      = WorkflowStep.COMPLETION := by rw [h2, hstep]
  obtain ⟨-, g2, g3, -⟩ := advance_workflow_final now2 step_result2
    (advance_workflow now step_result w).1 (by rw [hstep2]; rfl)
  exact ⟨rfl, h1, h3, hstep2, h4, g2, by rw [g3, h3]⟩

/-- C10 witness: the completion-step theorem instantiated on the
concrete COMPLETION-step workflow. -/
theorem C10_witness :
    (step_configs WorkflowStep.COMPLETION).next_step = none ∧
    (advance_workflow 1 none c10_workflow).2 = true ∧
    (advance_workflow 1 none c10_workflow).1.status = WorkflowStatus.COMPLETED ∧
    (advance_workflow 1 none c10_workflow).1.current_step = WorkflowStep.COMPLETION ∧
    (advance_workflow 1 none c10_workflow).1.retry_count = c10_workflow.retry_count ∧
    (advance_workflow 2 none (advance_workflow 1 none c10_workflow).1).1.current_step
      = (advance_workflow 1 none c10_workflow).1.current_step ∧
    (advance_workflow 2 none (advance_workflow 1 none c10_workflow).1).1.status
      = (advance_workflow 1 none c10_workflow).1.status :=
  C10_advance_completion 1 2 none none c10_workflow (by decide)

end ClaudeBot
